import Mathlib

/-
Verification of the session orchestration core of the Prepwise LiveKit
mock-interview agent (src/agents/livekit_interviewer.py).

The Python module is shallowly embedded:
  * `SessionState` mirrors the dataclass of the same name.
  * Firestore is modelled as association lists of documents; a document is an
    association list from field names to `FireValue`s.  `set(payload)` replaces
    the document, `set(payload, merge=True)` folds the payload fields over the
    existing document.  The `firestore.SERVER_TIMESTAMP` sentinel is resolved
    by the store at write time to the store's current clock value (a `Nat`
    parameter `now` of each write).
  * Each async tool method becomes a pure function from its arguments, the
    relevant environment inputs (fresh document id, store clock, HTTP outcome)
    and the pre-state to an `Outcome` holding the Python return value or the
    raised exception, the post-`SessionState`, the post-store and the list of
    session-level effects that were emitted (`generate_reply`, `say`,
    `aclose`, the error log).  Info-level `logger.info` calls are not modelled:
    they touch no state and no claim mentions them.
  * `json.loads` is a third-party function; it enters the model as an explicit
    parameter `parse : String → Option JValue` (`none` = `JSONDecodeError`).
    Concrete instantiations used in examples are faithful to `json.loads` on
    the concrete strings involved.
  * Python truthiness of an optional string (`if not self.state.user_id`)
    is `pyTruthy`: `None` and `""` are falsy.
  * `aiohttp` transport outcomes are `HttpOutcome`.  Per the aiohttp
    documentation, expiry of `ClientTimeout(total=...)` raises
    `asyncio.TimeoutError` (the builtin `TimeoutError`), which is not a
    subclass of `aiohttp.ClientError`; connection-phase timeouts raise
    `ServerTimeoutError`/`ConnectionTimeoutError`, which are `ClientError`
    subclasses.  The constructor `timeoutTotal` models the former and
    `clientError` the latter together with every other `aiohttp.ClientError`.
-/

set_option autoImplicit false

namespace Prepwise

/-- JSON values as produced by `json.loads`. -/
inductive JValue where
  | null : JValue
  | bool : Bool → JValue
  | num : Int → JValue
  | str : String → JValue
  | arr : List JValue → JValue
  | obj : List (String × JValue) → JValue
  deriving Repr

/-- A parsed JSON object (a Python `dict`). -/
abbrev JObj := List (String × JValue)

/-- Python `dict.get(key)`: first binding of `key`, if any. -/
def jGet : JObj → String → Option JValue
  | [], _ => none
  | (k, v) :: rest, key => if k = key then some v else jGet rest key

/-- Read a string-valued key of a metadata object.  The metadata keys the
agent reads (`userId`, `interviewId`, `mode`) are strings wherever they are
produced; non-string values for these keys are outside the model. -/
def jGetStr (o : JObj) (key : String) : Option String :=
  match jGet o key with
  | some (JValue.str s) => some s
  | _ => none

/-- Python truthiness of an optional string: `None` and `""` are falsy. -/
def pyTruthy : Option String → Bool
  | none => false
  | some s => s ≠ ""

/-- Python `a or b` on strings. -/
def pyOrStr (a b : String) : String :=
  if a = "" then b else a

/-- Values stored in a Firestore document field. -/
inductive FireValue where
  | str : String → FireValue
  | int : Int → FireValue
  | bool : Bool → FireValue
  | strList : List String → FireValue
  | timestamp : Nat → FireValue
  | serverTimestamp : FireValue
  deriving Repr, DecidableEq

/-- A Firestore document: fields to values. -/
abbrev Doc := List (String × FireValue)

/-- First value bound to `key`, if any. -/
def getAssoc {κ α : Type} [DecidableEq κ] : List (κ × α) → κ → Option α
  | [], _ => none
  | (k, v) :: rest, key => if k = key then some v else getAssoc rest key

/-- Remove every binding of `key`. -/
def eraseKey {κ α : Type} [DecidableEq κ] : List (κ × α) → κ → List (κ × α)
  | [], _ => []
  | (k, v) :: rest, key =>
    if k = key then eraseKey rest key else (k, v) :: eraseKey rest key

/-- Bind `key` to `v`, replacing any previous binding. -/
def setAssoc {κ α : Type} [DecidableEq κ] (l : List (κ × α)) (key : κ) (v : α) :
    List (κ × α) :=
  eraseKey l key ++ [(key, v)]

/-- Number of bindings of `key`. -/
def countKey {κ α : Type} [DecidableEq κ] : List (κ × α) → κ → Nat
  | [], _ => 0
  | (k, _) :: rest, key => (if k = key then 1 else 0) + countKey rest key

/-- Value of the LAST binding of `key`, if any (the binding that wins when the
list is folded left-to-right into a document by `mergeDoc`). -/
def lastVal {κ α : Type} [DecidableEq κ] : List (κ × α) → κ → Option α
  | [], _ => none
  | (k, v) :: rest, key =>
    match lastVal rest key with
    | some w => some w
    | none => if k = key then some v else none

/-- Firestore `set(payload, merge=True)`: fold the payload fields over the
existing document, overwriting written fields and keeping the rest. -/
def mergeDoc (prior payload : Doc) : Doc :=
  payload.foldl (fun acc p => setAssoc acc p.1 p.2) prior

/-- The store resolves `SERVER_TIMESTAMP` sentinels at commit time to its
current clock value `now`. -/
def resolveTimestamps (now : Nat) (payload : Doc) : Doc :=
  payload.map fun p =>
    (p.1, match p.2 with
          | FireValue.serverTimestamp => FireValue.timestamp now
          | v => v)

/-- The document store: the `interviews` collection and, under each interview
id, the `answers` sub-collection keyed by the string form of the sequence. -/
structure Firestore where
  interviews : List (String × Doc) := []
  answers : List ((String × String) × Doc) := []
  deriving Repr, DecidableEq

/-- Embedding of `firestore_client.collection("interviews").document(id).set(payload, merge=True)`. -/
def fsSetInterviewMerge (fs : Firestore) (id : String) (payload : Doc) : Firestore :=
  { fs with
    interviews :=
      setAssoc fs.interviews id (mergeDoc ((getAssoc fs.interviews id).getD []) payload) }

/-- Embedding of `...document(iid).collection("answers").document(docId).set(payload)`:
a plain (non-merge) set replaces the whole document. -/
def fsSetAnswer (fs : Firestore) (iid docId : String) (payload : Doc) : Firestore :=
  { fs with answers := setAssoc fs.answers (iid, docId) payload }

/-- Mirror of the Python `SessionState` dataclass. -/
structure SessionState where
  mode : String := "create"
  interview_id : Option String := none
  user_id : Option String := none
  metadata_complete : Bool := false
  questions_generated : Bool := false
  current_question_index : Nat := 0
  question_list : List String := []
  deriving Repr, DecidableEq

/-- Session-level effects emitted by the agent (speech, reply generation,
session close, the error log of `on_enter`). -/
inductive Action where
  | logError : String → Action
  | generateReply : Action
  | say : String → Action
  | closeSession : Action
  deriving Repr, DecidableEq

/-- Exceptions raised by the tool methods, named after the spec taxonomy.
`identityMissing` and `noActiveInterview` are the two `ValueError`s;
`generationRejected` is the `RuntimeError` raised on a status >= 400 carrying
the status and the response body; `generationUnreachable` is the
`RuntimeError` wrapping an `aiohttp.ClientError`; `uncaught` is an exception
that escapes the method unclassified. -/
inductive ToolError where
  | identityMissing : String → ToolError
  | noActiveInterview : String → ToolError
  | generationRejected : Nat → String → ToolError
  | generationUnreachable : String → ToolError
  | uncaught : String → ToolError
  deriving Repr, DecidableEq

/-- The `response_payload` of `request_question_generation`: the parsed body, the
default `{"success": True}` for an empty body, or `{"raw": body}` when the
body does not parse. -/
inductive GenPayload where
  | parsed : JValue → GenPayload
  | successDefault : GenPayload
  | raw : String → GenPayload
  deriving Repr

/-- Python return values of the three tools. -/
inductive ToolResult where
  | interviewId : String → ToolResult
  | generationTriggered : GenPayload → ToolResult
  | stored : ToolResult
  deriving Repr

/-- Result of running one tool: the returned value or raised exception, the
post-state, the post-store and the emitted session effects. -/
structure Outcome where
  result : Except ToolError ToolResult
  state : SessionState
  fstore : Firestore
  actions : List Action
  deriving Repr

/-- Drop leading and trailing whitespace characters from a character list. -/
def stripChars (l : List Char) : List Char :=
  ((l.dropWhile Char.isWhitespace).reverse.dropWhile Char.isWhitespace).reverse

/-- Python `str.strip()`.  `Char.isWhitespace` covers the ASCII whitespace
characters; the wider Unicode whitespace set Python also strips does not
occur in the strings of this development. -/
def pyStrip (s : String) : String :=
  String.mk (stripChars s.data)

/-- Helper for `pySplitComma`: accumulate the current piece (reversed). -/
def splitCommaAux : List Char → List Char → List String
  | [], acc => [String.mk acc.reverse]
  | c :: rest, acc =>
    if c = ',' then String.mk acc.reverse :: splitCommaAux rest []
    else splitCommaAux rest (c :: acc)

/-- Python `str.split(",")`: split at every comma, keeping empty pieces. -/
def pySplitComma (s : String) : List String :=
  splitCommaAux s.data []

/-- Embedding of `[item.strip() for item in tech_stack.split(",") if item.strip()]`. -/
def techValues (tech_stack : String) : List String :=
  ((pySplitComma tech_stack).filter fun item => pyStrip item ≠ "").map pyStrip

/-- Arguments of `store_user_details`. -/
structure StoreArgs where
  role : String
  level : String
  tech_stack : String
  interview_type : String
  question_count : Int
  deriving Repr, DecidableEq

/-- The payload dict built by `store_user_details` (before the store resolves
the `SERVER_TIMESTAMP` sentinel). -/
def interviewPayload (args : StoreArgs) (userId : String) : Doc :=
  [("role", FireValue.str args.role),
   ("level", FireValue.str args.level),
   ("type", FireValue.str args.interview_type),
   ("techstack", FireValue.strList (techValues args.tech_stack)),
   ("questionCount", FireValue.int args.question_count),
   ("userId", FireValue.str userId),
   ("finalized", FireValue.bool false),
   ("createdAt", FireValue.serverTimestamp)]

/-- The document targeted by `store_user_details`: the session's interview id
when one is assigned (truthy), else the freshly generated id of
`collection("interviews").document()`. -/
def storeTargetId (st : SessionState) (freshId : String) : String :=
  if pyTruthy st.interview_id then st.interview_id.getD "" else freshId

/-- Embedding of `InterviewAgent.store_user_details`.  `freshId` is the identifier
Firestore generates for `collection("interviews").document()`; `now` is the
store clock at commit time. -/
def store_user_details (args : StoreArgs) (freshId : String) (now : Nat)
    (st : SessionState) (fs : Firestore) : Outcome :=
  if ¬ pyTruthy st.user_id then
    { result := Except.error
        (ToolError.identityMissing "Missing user identity in room metadata"),
      state := st, fstore := fs, actions := [] }
  else
    let docId := storeTargetId st freshId
    let payload := resolveTimestamps now (interviewPayload args (st.user_id.getD ""))
    let fs := fsSetInterviewMerge fs docId payload
    let st := { st with interview_id := some docId, metadata_complete := true }
    { result := Except.ok (ToolResult.interviewId docId),
      state := st, fstore := fs, actions := [] }

/-- The eight field names written by every `store_user_details` call. -/
def payloadFieldNames : List String :=
  ["role", "level", "type", "techstack", "questionCount", "userId",
   "finalized", "createdAt"]

/-- The interview document stored at the call's target id after a
`store_user_details` call. -/
def interviewDocAfter (args : StoreArgs) (freshId : String) (now : Nat)
    (st : SessionState) (fs : Firestore) : Doc :=
  (getAssoc (store_user_details args freshId now st fs).fstore.interviews
    (storeTargetId st freshId)).getD []

/-- Arguments of `request_question_generation`. -/
structure GenArgs where
  type : String
  role : String
  level : String
  techstack : String
  amount : Int
  userid : String
  deriving Repr, DecidableEq

/-- Transport outcome of the single aiohttp POST.  `response status body` is a
received HTTP response with its body fully read; `clientError` is any raised
`aiohttp.ClientError` (including the connection-phase timeout subclasses
`ServerTimeoutError`/`ConnectionTimeoutError`); `timeoutTotal` is expiry of
`ClientTimeout(total=30)` surfacing as `asyncio.TimeoutError`, which is not an
`aiohttp.ClientError`. -/
inductive HttpOutcome where
  | response : Nat → String → HttpOutcome
  | clientError : String → HttpOutcome
  | timeoutTotal : HttpOutcome
  deriving Repr, DecidableEq

/-- The text spoken before the session is closed. -/
def finalMessage : String :=
  "Great! I have generated your interview. You will now be redirected to begin."

/-- Embedding of `InterviewAgent.request_question_generation`.  `parse` models
`json.loads` on the response body.  The `try` block catches only
`aiohttp.ClientError`; the status >= 400 `RuntimeError` raised inside it is not
an `aiohttp.ClientError` and propagates, as does the `asyncio.TimeoutError`
of a total-timeout expiry.  The store is untouched by this tool. -/
def request_question_generation (parse : String → Option JValue) (args : GenArgs)
    (outcome : HttpOutcome) (st : SessionState) (fs : Firestore) : Outcome :=
  match outcome with
  | HttpOutcome.response status body =>
    if status ≥ 400 then
      { result := Except.error (ToolError.generationRejected status body),
        state := st, fstore := fs, actions := [] }
    else
      let response_payload :=
        if body = "" then GenPayload.successDefault
        else
          match parse body with
          | some v => GenPayload.parsed v
          | none => GenPayload.raw body
      let st := { st with questions_generated := true, question_list := [] }
      { result := Except.ok (ToolResult.generationTriggered response_payload),
        state := st, fstore := fs,
        actions := [Action.say finalMessage, Action.closeSession] }
  | HttpOutcome.clientError _ =>
    { result := Except.error
        (ToolError.generationUnreachable "Failed to call /api/agent/generate"),
      state := st, fstore := fs, actions := [] }
  | HttpOutcome.timeoutTotal =>
    { result := Except.error (ToolError.uncaught "asyncio.TimeoutError"),
      state := st, fstore := fs, actions := [] }

/-- The request body built by `request_question_generation`; `userid` falls
back to the stored `user_id` when the argument is blank. -/
def genRequestUserid (args : GenArgs) (st : SessionState) : String :=
  pyOrStr args.userid (st.user_id.getD "")

/-- Arguments of `save_answer`. -/
structure AnswerArgs where
  question : String
  answer : String
  sequence : Int
  deriving Repr, DecidableEq

/-- The payload dict built by `save_answer`. -/
def answerPayload (args : AnswerArgs) : Doc :=
  [("question", FireValue.str args.question),
   ("answer", FireValue.str args.answer),
   ("sequence", FireValue.int args.sequence),
   ("createdAt", FireValue.serverTimestamp)]

/-- Embedding of `InterviewAgent.save_answer`.  The answer document id is `str(sequence)`
and the write is a plain `set` (replace). -/
def save_answer (args : AnswerArgs) (now : Nat) (st : SessionState)
    (fs : Firestore) : Outcome :=
  if ¬ pyTruthy st.interview_id then
    { result := Except.error
        (ToolError.noActiveInterview "Interview ID missing; nothing to save"),
      state := st, fstore := fs, actions := [] }
  else
    let fs := fsSetAnswer fs (st.interview_id.getD "") (toString args.sequence)
      (resolveTimestamps now (answerPayload args))
    { result := Except.ok ToolResult.stored,
      state := st, fstore := fs, actions := [] }

/-- Embedding of `InterviewAgent.on_enter`: load identity keys and mode from the resolved
metadata; in conduct mode without an interview id, log the error and return
without generating a reply (the method just returns — it does not close the
session or disable the function tools). -/
def onEnter (meta : JObj) (st : SessionState) : SessionState × List Action :=
  let st := { st with
    user_id := jGetStr meta "userId"
    interview_id := jGetStr meta "interviewId"
    mode := (jGetStr meta "mode").getD st.mode }
  if st.mode = "conduct" ∧ ¬ pyTruthy st.interview_id then
    (st, [Action.logError "Missing interview id in room metadata; ending session"])
  else
    (st, [Action.generateReply])

/-- The `SessionState` the entrypoint constructs before starting the agent:
all defaults except `mode`, taken from the resolved metadata. -/
def initialState (meta : JObj) : SessionState :=
  { mode := (jGetStr meta "mode").getD "create" }

/-- Session setup: the entrypoint state followed by `on_enter`. -/
def sessionEntry (meta : JObj) : SessionState × List Action :=
  onEnter meta (initialState meta)

/-- The candidate source list built by `_session_metadata`: the room metadata
first if truthy, then each participant metadata that is truthy, in order. -/
def buildSources (roomMeta : Option String) (participantMetas : List (Option String)) :
    List String :=
  (match roomMeta with
   | some s => if s ≠ "" then [s] else []
   | none => []) ++
  participantMetas.filterMap fun m =>
    match m with
    | some s => if s ≠ "" then some s else none
    | none => none

/-- The selection loop of `_session_metadata`: `json.loads(raw or "{}")`,
return the parsed value if it is a non-empty dict, skip the source on a
`JSONDecodeError` or when the value is not a non-empty dict; the empty dict
when the sources run out. -/
def resolveSources (parse : String → Option JValue) : List String → JObj
  | [] => []
  | raw :: rest =>
    match parse (pyOrStr raw "\x7b\x7d") with
    | some (JValue.obj fields) =>
      if fields.isEmpty then resolveSources parse rest else fields
    | _ => resolveSources parse rest

/-- Embedding of `_session_metadata`: collect the candidate sources, then run the
selection loop. -/
def sessionMetadata (parse : String → Option JValue) (roomMeta : Option String)
    (participantMetas : List (Option String)) : JObj :=
  resolveSources parse (buildSources roomMeta participantMetas)

/-- Modelled from the spec (refinement reference for the resolver): return
the parsed object of the first source that parses as a non-empty structured
object, skipping sources that do not so parse; the empty object if none
does. -/
def specFirstMetadata (parse : String → Option JValue) (sources : List String) : JObj :=
  match sources.findSome? fun raw =>
    match parse raw with
    | some (JValue.obj fields) => if fields.isEmpty then none else some fields
    | _ => none with
  | some o => o
  | none => []

/-- The JSON text of the spec's resolver example (second source). -/
def exJson : String := "\x7b\"mode\":\"conduct\",\"interviewId\":\"abc\"\x7d"

/-- Model of `json.loads` restricted to the two strings of the spec's resolver
example: `"not json"` raises `JSONDecodeError`; `exJson` parses to the
two-field object.  Faithful to `json.loads` on exactly these inputs. -/
def parseEx (s : String) : Option JValue :=
  if s = exJson then
    some (JValue.obj [("mode", JValue.str "conduct"),
                      ("interviewId", JValue.str "abc")])
  else none

/-- One externally driven tool invocation together with the environment
inputs it consumes. -/
inductive ToolCall where
  | store : StoreArgs → String → Nat → ToolCall
  | generate : GenArgs → HttpOutcome → ToolCall
  | saveAns : AnswerArgs → Nat → ToolCall
  deriving Repr

/-- Dispatch one tool call. -/
def runTool (parse : String → Option JValue) (st : SessionState) (fs : Firestore) :
    ToolCall → Outcome
  | ToolCall.store args freshId now => store_user_details args freshId now st fs
  | ToolCall.generate args outcome => request_question_generation parse args outcome st fs
  | ToolCall.saveAns args now => save_answer args now st fs

/-- Run a sequence of tool calls from a state and store. -/
def runTrace (parse : String → Option JValue) (st : SessionState) (fs : Firestore) :
    List ToolCall → SessionState × Firestore
  | [] => (st, fs)
  | c :: rest =>
    let o := runTool parse st fs c
    runTrace parse o.state o.fstore rest

/-- A tool call that received a status < 400 response from the generation
endpoint. -/
def isSuccessfulGen : ToolCall → Prop
  | ToolCall.generate _ (HttpOutcome.response status _) => status < 400
  | _ => False

instance : DecidablePred isSuccessfulGen := by
  intro c
  cases c with
  | store args freshId now => exact Decidable.isFalse (by simp [isSuccessfulGen])
  | generate args outcome =>
    cases outcome with
    | response status body =>
      exact decidable_of_iff (status < 400) (by simp [isSuccessfulGen])
    | clientError e => exact Decidable.isFalse (by simp [isSuccessfulGen])
    | timeoutTotal => exact Decidable.isFalse (by simp [isSuccessfulGen])
  | saveAns args now => exact Decidable.isFalse (by simp [isSuccessfulGen])

/-- Concrete `store_user_details` arguments used in examples. -/
def storeArgsEx : StoreArgs :=
  { role := "Backend Engineer", level := "Senior", tech_stack := "Go, Postgres",
    interview_type := "technical", question_count := 5 }

/-- Concrete `request_question_generation` arguments used in examples. -/
def genArgsEx : GenArgs :=
  { type := "technical", role := "Backend Engineer", level := "Senior",
    techstack := "Go, Postgres", amount := 5, userid := "u1" }

theorem getAssoc_append {κ α : Type} [DecidableEq κ] (l1 l2 : List (κ × α)) (k : κ) :
    getAssoc (l1 ++ l2) k =
      match getAssoc l1 k with
      | some v => some v
      | none => getAssoc l2 k := by
  induction l1 with
  | nil => simp [getAssoc]
  | cons p rest ih =>
    by_cases h : p.1 = k <;> simp [getAssoc, h, ih]

theorem getAssoc_eraseKey_self {κ α : Type} [DecidableEq κ]
    (l : List (κ × α)) (k : κ) : getAssoc (eraseKey l k) k = none := by
  induction l with
  | nil => simp [eraseKey, getAssoc]
  | cons p rest ih =>
    by_cases h : p.1 = k <;> simp [eraseKey, getAssoc, h, ih]

theorem getAssoc_eraseKey_ne {κ α : Type} [DecidableEq κ]
    (l : List (κ × α)) (k k2 : κ) (h : k2 ≠ k) :
    getAssoc (eraseKey l k) k2 = getAssoc l k2 := by
  induction l with
  | nil => simp [eraseKey]
  | cons p rest ih =>
    by_cases hp : p.1 = k
    · simp [eraseKey, getAssoc, hp, Ne.symm h, ih]
    · by_cases hp2 : p.1 = k2 <;> simp [eraseKey, getAssoc, hp, hp2, h, ih]

theorem getAssoc_setAssoc_self {κ α : Type} [DecidableEq κ]
    (l : List (κ × α)) (k : κ) (v : α) : getAssoc (setAssoc l k v) k = some v := by
  simp [setAssoc, getAssoc_append, getAssoc_eraseKey_self, getAssoc]

theorem getAssoc_setAssoc_ne {κ α : Type} [DecidableEq κ]
    (l : List (κ × α)) (k k2 : κ) (v : α) (h : k2 ≠ k) :
    getAssoc (setAssoc l k v) k2 = getAssoc l k2 := by
  rw [setAssoc, getAssoc_append, getAssoc_eraseKey_ne l k k2 h]
  cases hx : getAssoc l k2 with
  | some w => simp
  | none => simp [getAssoc, Ne.symm h]

theorem countKey_append {κ α : Type} [DecidableEq κ] (l1 l2 : List (κ × α)) (k : κ) :
    countKey (l1 ++ l2) k = countKey l1 k + countKey l2 k := by
  induction l1 with
  | nil => simp [countKey]
  | cons p rest ih => simp [countKey, ih]; omega

theorem countKey_eraseKey_self {κ α : Type} [DecidableEq κ]
    (l : List (κ × α)) (k : κ) : countKey (eraseKey l k) k = 0 := by
  induction l with
  | nil => simp [eraseKey, countKey]
  | cons p rest ih =>
    by_cases h : p.1 = k <;> simp [eraseKey, countKey, h, ih]

theorem countKey_setAssoc_self {κ α : Type} [DecidableEq κ]
    (l : List (κ × α)) (k : κ) (v : α) : countKey (setAssoc l k v) k = 1 := by
  simp [setAssoc, countKey_append, countKey_eraseKey_self, countKey]

theorem mergeDoc_cons (prior : Doc) (k : String) (v : FireValue) (rest : Doc) :
    mergeDoc prior ((k, v) :: rest) = mergeDoc (setAssoc prior k v) rest := rfl

theorem mergeDoc_get (payload : Doc) : ∀ (prior : Doc) (k : String),
    getAssoc (mergeDoc prior payload) k =
      match lastVal payload k with
      | some w => some w
      | none => getAssoc prior k := by
  induction payload with
  | nil => intro prior k; simp [mergeDoc, lastVal]
  | cons p rest ih =>
    intro prior k
    rw [show p = (p.1, p.2) from rfl, mergeDoc_cons, ih]
    cases h : lastVal rest k with
    | some w => simp [lastVal, h]
    | none =>
      by_cases hak : p.1 = k
      · subst hak; simp [lastVal, h, getAssoc_setAssoc_self]
      · simp [lastVal, h, hak,
          getAssoc_setAssoc_ne prior p.1 k p.2 (Ne.symm hak)]

theorem sessionEntry_questions_generated (meta : JObj) :
    (sessionEntry meta).1.questions_generated = false := by
  simp only [sessionEntry, onEnter, initialState]
  split <;> rfl

theorem runTool_questions_monotone (parse : String → Option JValue)
    (st : SessionState) (fs : Firestore) (c : ToolCall)
    (h : (runTool parse st fs c).state.questions_generated = true) :
    st.questions_generated = true ∨ isSuccessfulGen c := by
  cases c with
  | store args freshId now =>
    left
    by_cases hu : pyTruthy st.user_id <;>
      simpa [runTool, store_user_details, hu] using h
  | generate args outcome =>
    cases outcome with
    | response status body =>
      by_cases hs : 400 ≤ status
      · left; simpa [runTool, request_question_generation, hs] using h
      · right; simp only [isSuccessfulGen]; omega
    | clientError e => left; simpa [runTool, request_question_generation] using h
    | timeoutTotal => left; simpa [runTool, request_question_generation] using h
  | saveAns args now =>
    left
    by_cases hi : pyTruthy st.interview_id <;>
      simpa [runTool, save_answer, hi] using h

theorem runTrace_questions_generated (parse : String → Option JValue)
    (calls : List ToolCall) : ∀ (st : SessionState) (fs : Firestore),
    (runTrace parse st fs calls).1.questions_generated = true →
    st.questions_generated = true ∨ ∃ c ∈ calls, isSuccessfulGen c := by
  induction calls with
  | nil => intro st fs h; left; simpa [runTrace] using h
  | cons c rest ih =>
    intro st fs h
    simp only [runTrace] at h
    rcases ih _ _ h with h1 | ⟨c2, hc2, hs⟩
    · rcases runTool_questions_monotone parse st fs c h1 with h2 | h2
      · exact Or.inl h2
      · exact Or.inr ⟨c, List.mem_cons_self c rest, h2⟩
    · exact Or.inr ⟨c2, List.mem_cons_of_mem c hc2, hs⟩

/-- Claim C1 is refuted as stated: `request_question_generation` enforces no
state precondition, so from a fresh create-mode session a single successful
generation call reaches `questionsGenerated = true` while
`metadataComplete = false` and `interviewId` is unset. -/
theorem C1_counterexample :
    (runTrace parseEx (sessionEntry [("mode", JValue.str "create")]).1 {}
        [ToolCall.generate genArgsEx (HttpOutcome.response 200 "")]).1.questions_generated
      = true
  ∧ (runTrace parseEx (sessionEntry [("mode", JValue.str "create")]).1 {}
        [ToolCall.generate genArgsEx (HttpOutcome.response 200 "")]).1.metadata_complete
      = false
  ∧ (runTrace parseEx (sessionEntry [("mode", JValue.str "create")]).1 {}
        [ToolCall.generate genArgsEx (HttpOutcome.response 200 "")]).1.interview_id
      = none :=
  ⟨rfl, rfl, rfl⟩

/-- Claim C1, amended: over every session and every sequence of tool calls,
`questionsGenerated` can become true only through a
`request_question_generation` call that received a status < 400 response;
no `metadataComplete` or `interviewId` precondition is enforced. -/
theorem C1_questions_generated_only_by_accepted_generation
    (parse : String → Option JValue) (meta : JObj) (fs : Firestore)
    (calls : List ToolCall)
    (h : (runTrace parse (sessionEntry meta).1 fs calls).1.questions_generated = true) :
    ∃ c ∈ calls, isSuccessfulGen c := by
  rcases runTrace_questions_generated parse calls _ fs h with h1 | h2
  · rw [sessionEntry_questions_generated meta] at h1
    exact absurd h1 (by simp)
  · exact h2

/-- Witness for the amended C1 theorem at a concrete session and trace. -/
theorem C1_questions_generated_only_by_accepted_generation_witness :
    ∃ c ∈ [ToolCall.generate genArgsEx (HttpOutcome.response 200 "ok")],
      isSuccessfulGen c :=
  C1_questions_generated_only_by_accepted_generation parseEx [] {}
    [ToolCall.generate genArgsEx (HttpOutcome.response 200 "ok")] rfl

/-- Claim C2 is refuted on its final conjunct: in a conduct-mode session
without an interview id, setup logs the failure and generates no reply, but
the tool operations are not disabled — a subsequent `store_user_details`
executes and succeeds, since the user id is present. -/
theorem C2_counterexample :
    (sessionEntry [("userId", JValue.str "u1"), ("mode", JValue.str "conduct")]).2
      = [Action.logError "Missing interview id in room metadata; ending session"]
  ∧ (store_user_details storeArgsEx "gen1" 5
        (sessionEntry [("userId", JValue.str "u1"), ("mode", JValue.str "conduct")]).1
        {}).result
      = Except.ok (ToolResult.interviewId "gen1") :=
  ⟨rfl, rfl⟩

/-- Claim C2, amended: for every session whose resolved metadata has
mode = conduct and no interview id, `on_enter` logs the failure and emits no
reply, but none of the tools is disabled: `store_user_details` still
succeeds whenever the user id is present, and `save_answer` still fails only
because the interview id is unset. -/
theorem C2_conduct_without_id_logs_and_skips_reply
    (meta : JObj) (st : SessionState)
    (hmode : (jGetStr meta "mode").getD st.mode = "conduct")
    (hid : pyTruthy (jGetStr meta "interviewId") = false) :
    (onEnter meta st).2
      = [Action.logError "Missing interview id in room metadata; ending session"]
  ∧ Action.generateReply ∉ (onEnter meta st).2
  ∧ (∀ args freshId now fs, pyTruthy (jGetStr meta "userId") = true →
      (store_user_details args freshId now (onEnter meta st).1 fs).result
        = Except.ok (ToolResult.interviewId freshId))
  ∧ (∀ args now fs,
      (save_answer args now (onEnter meta st).1 fs).result
        = Except.error
            (ToolError.noActiveInterview "Interview ID missing; nothing to save")) := by
  refine ⟨?_, ?_, ?_, ?_⟩
  · simp [onEnter, hmode, hid]
  · simp [onEnter, hmode, hid]
  · intro args freshId now fs hu
    simp [onEnter, hmode, hid, store_user_details, storeTargetId, hu]
  · intro args now fs
    simp [onEnter, hmode, hid, save_answer]

/-- Witness for the amended C2 theorem at a concrete conduct-mode session. -/
theorem C2_conduct_without_id_logs_and_skips_reply_witness :
    (onEnter [("userId", JValue.str "u1"), ("mode", JValue.str "conduct")] {}).2
      = [Action.logError "Missing interview id in room metadata; ending session"]
  ∧ (store_user_details storeArgsEx "gen1" 5
        (onEnter [("userId", JValue.str "u1"), ("mode", JValue.str "conduct")] {}).1
        {}).result
      = Except.ok (ToolResult.interviewId "gen1") := by
  have h := C2_conduct_without_id_logs_and_skips_reply
    [("userId", JValue.str "u1"), ("mode", JValue.str "conduct")] {} rfl rfl
  exact ⟨h.1, h.2.2.1 storeArgsEx "gen1" 5 {} rfl⟩

/-- A concrete mid-session state used in examples: metadata stored, interview
id assigned, questions not yet generated. -/
def stateEx : SessionState :=
  { mode := "create", interview_id := some "i1", user_id := some "u1",
    metadata_complete := true }

/-- Claim C3 (confirmed): a response with status >= 400 raises
GenerationRejected carrying the response body as detail and leaves the
session state, the store and the emitted effects untouched — in particular
`questionsGenerated` keeps its value and no closing announcement or session
close happens; and `questionsGenerated` can become true only through a
response with status < 400. -/
theorem C3_rejected_generation_leaves_state (parse : String → Option JValue)
    (args : GenArgs) (st : SessionState) (fs : Firestore) :
    (∀ status body, 400 ≤ status →
      request_question_generation parse args (HttpOutcome.response status body) st fs
        = { result := Except.error (ToolError.generationRejected status body),
            state := st, fstore := fs, actions := [] })
  ∧ (∀ outcome,
      (request_question_generation parse args outcome st fs).state.questions_generated
          = true →
      st.questions_generated = true
        ∨ ∃ status body, outcome = HttpOutcome.response status body ∧ status < 400) := by
  constructor
  · intro status body hs
    simp [request_question_generation, hs]
  · intro outcome h
    cases outcome with
    | response status body =>
      by_cases hs : 400 ≤ status
      · left; simpa [request_question_generation, hs] using h
      · right; exact ⟨status, body, rfl, by omega⟩
    | clientError e => left; simpa [request_question_generation] using h
    | timeoutTotal => left; simpa [request_question_generation] using h

/-- Witness for C3 at a simulated 500 response and at an accepted 200. -/
theorem C3_rejected_generation_leaves_state_witness :
    request_question_generation parseEx genArgsEx (HttpOutcome.response 500 "boom")
        stateEx {}
      = { result := Except.error (ToolError.generationRejected 500 "boom"),
          state := stateEx, fstore := {}, actions := [] }
  ∧ (stateEx.questions_generated = true
      ∨ ∃ status body,
          HttpOutcome.response 200 "" = HttpOutcome.response status body
            ∧ status < 400) :=
  ⟨(C3_rejected_generation_leaves_state parseEx genArgsEx stateEx {}).1 500 "boom"
      (by decide),
   (C3_rejected_generation_leaves_state parseEx genArgsEx stateEx {}).2
      (HttpOutcome.response 200 "") rfl⟩

/-- Claim C4 (the code deviates): the `except` clause of the source wraps
only `aiohttp.ClientError` as GenerationUnreachable; expiry of the total
timeout raises `asyncio.TimeoutError`, which is not an `aiohttp.ClientError`
and escapes the tool unclassified.  In both cases the state — and so
`questionsGenerated` — and the store are unchanged. -/
theorem C4_total_timeout_escapes_unclassified (parse : String → Option JValue)
    (args : GenArgs) (st : SessionState) (fs : Firestore) :
    request_question_generation parse args HttpOutcome.timeoutTotal st fs
      = { result := Except.error (ToolError.uncaught "asyncio.TimeoutError"),
          state := st, fstore := fs, actions := [] }
  ∧ (∀ e, request_question_generation parse args (HttpOutcome.clientError e) st fs
      = { result := Except.error
            (ToolError.generationUnreachable "Failed to call /api/agent/generate"),
          state := st, fstore := fs, actions := [] }) :=
  ⟨rfl, fun _ => rfl⟩

/-- Claim C6 (confirmed): the tech-stack normalization of
`store_user_details` equals split-on-commas, strip each entry, drop entries
empty after stripping, order preserved; the spec example yields exactly
["React", "Node", "TypeScript"]. -/
theorem C6_tech_stack_normalization :
    (∀ s, techValues s = ((pySplitComma s).map pyStrip).filter fun t => t ≠ "")
  ∧ techValues "React, Node, , TypeScript " = ["React", "Node", "TypeScript"] := by
  constructor
  · intro s
    rw [techValues]
    generalize pySplitComma s = l
    induction l with
    | nil => simp
    | cons a l ih =>
      simp only [ne_eq, decide_not] at ih ⊢
      by_cases h : pyStrip a = "" <;> simp [h, ih]
  · decide

theorem specFirstMetadata_cons (parse : String → Option JValue) (raw : String)
    (rest : List String) :
    specFirstMetadata parse (raw :: rest)
      = match parse raw with
        | some (JValue.obj fields) =>
          if fields.isEmpty then specFirstMetadata parse rest else fields
        | _ => specFirstMetadata parse rest := by
  cases hp : parse raw with
  | none => simp [specFirstMetadata, List.findSome?_cons, hp]
  | some v =>
    cases v with
    | obj fields =>
      by_cases hf : fields.isEmpty <;>
        simp [specFirstMetadata, List.findSome?_cons, hp, hf]
    | null => simp [specFirstMetadata, List.findSome?_cons, hp]
    | bool b => simp [specFirstMetadata, List.findSome?_cons, hp]
    | num n => simp [specFirstMetadata, List.findSome?_cons, hp]
    | str s => simp [specFirstMetadata, List.findSome?_cons, hp]
    | arr xs => simp [specFirstMetadata, List.findSome?_cons, hp]

theorem buildSources_ne_empty (roomMeta : Option String)
    (parts : List (Option String)) :
    ∀ r ∈ buildSources roomMeta parts, r ≠ "" := by
  intro r hr
  rcases List.mem_append.mp hr with h | h
  · cases roomMeta with
    | none => simp at h
    | some s =>
      by_cases hs : s = ""
      · simp [hs] at h
      · simp [hs] at h
        rw [h]; exact hs
  · rcases List.mem_filterMap.mp h with ⟨m, _, hm⟩
    cases m with
    | none => simp at hm
    | some s =>
      by_cases hs : s = ""
      · simp [hs] at hm
      · simp [hs] at hm
        rw [← hm]; exact hs

theorem resolveSources_eq_spec (parse : String → Option JValue) :
    ∀ (sources : List String), (∀ r ∈ sources, r ≠ "") →
      resolveSources parse sources = specFirstMetadata parse sources := by
  intro sources
  induction sources with
  | nil => intro _; rfl
  | cons raw rest ih =>
    intro h
    have hraw : raw ≠ "" := h raw (List.mem_cons_self _ _)
    have hrest : ∀ r ∈ rest, r ≠ "" := fun r hr => h r (List.mem_cons_of_mem _ hr)
    have hor : pyOrStr raw "\x7b\x7d" = raw := by simp [pyOrStr, hraw]
    rw [specFirstMetadata_cons]
    simp only [resolveSources, hor]
    cases hp : parse raw with
    | none => simpa [hp] using ih hrest
    | some v =>
      cases v with
      | obj fields =>
        by_cases hf : fields.isEmpty <;> simp [hp, hf, ih hrest]
      | null => simpa [hp] using ih hrest
      | bool b => simpa [hp] using ih hrest
      | num n => simpa [hp] using ih hrest
      | str s => simpa [hp] using ih hrest
      | arr xs => simpa [hp] using ih hrest

/-- Claim C7 (confirmed): `_session_metadata` returns the parsed object of
the first candidate source (room context first, then the participants in
order) that parses as a non-empty object, skipping sources that do not, and
the empty object when none does; on the spec example
["not json", the conduct JSON] it returns the second source's object. -/
theorem C7_metadata_resolver (parse : String → Option JValue)
    (roomMeta : Option String) (parts : List (Option String)) :
    sessionMetadata parse roomMeta parts
      = specFirstMetadata parse (buildSources roomMeta parts)
  ∧ resolveSources parseEx ["not json", exJson]
      = [("mode", JValue.str "conduct"), ("interviewId", JValue.str "abc")] := by
  constructor
  · exact resolveSources_eq_spec parse (buildSources roomMeta parts)
      (buildSources_ne_empty roomMeta parts)
  · rfl

/-- Claim C8 (confirmed): `save_answer` raises NoActiveInterview exactly when
the session's interview id is unset (absent or empty — Python truthiness),
writing nothing in that case; otherwise it upserts the answer record keyed by
(interviewId, str(sequence)), so a second call with the same sequence leaves
exactly one stored record for that key, holding the second call's payload. -/
theorem C8_save_answer_upsert (args : AnswerArgs) (now : Nat)
    (st : SessionState) (fs : Firestore) :
    ((save_answer args now st fs).result
        = Except.error
            (ToolError.noActiveInterview "Interview ID missing; nothing to save")
      ↔ pyTruthy st.interview_id = false)
  ∧ (pyTruthy st.interview_id = false →
      save_answer args now st fs
        = { result := Except.error
              (ToolError.noActiveInterview "Interview ID missing; nothing to save"),
            state := st, fstore := fs, actions := [] })
  ∧ (pyTruthy st.interview_id = true → ∀ args2 now2, args2.sequence = args.sequence →
      getAssoc
          (save_answer args2 now2 st (save_answer args now st fs).fstore).fstore.answers
          (st.interview_id.getD "", toString args.sequence)
        = some (resolveTimestamps now2 (answerPayload args2))
      ∧ countKey
          (save_answer args2 now2 st (save_answer args now st fs).fstore).fstore.answers
          (st.interview_id.getD "", toString args.sequence) = 1) := by
  refine ⟨?_, ?_, ?_⟩
  · by_cases hi : pyTruthy st.interview_id <;> simp [save_answer, hi]
  · intro hi; simp [save_answer, hi]
  · intro hi args2 now2 hseq
    rw [← hseq]
    constructor
    · simp [save_answer, hi, fsSetAnswer, getAssoc_setAssoc_self]
    · simp [save_answer, hi, fsSetAnswer, countKey_setAssoc_self]

/-- Witness for C8: the spec's sequence-3 example, two different answer
texts, one surviving record holding the second. -/
theorem C8_save_answer_upsert_witness :
    getAssoc
        (save_answer ⟨"Q3", "second answer", 3⟩ 8 stateEx
          (save_answer ⟨"Q3", "first answer", 3⟩ 7 stateEx {}).fstore).fstore.answers
        (stateEx.interview_id.getD "",
          toString (AnswerArgs.sequence ⟨"Q3", "first answer", 3⟩))
      = some (resolveTimestamps 8 (answerPayload ⟨"Q3", "second answer", 3⟩))
  ∧ countKey
        (save_answer ⟨"Q3", "second answer", 3⟩ 8 stateEx
          (save_answer ⟨"Q3", "first answer", 3⟩ 7 stateEx {}).fstore).fstore.answers
        (stateEx.interview_id.getD "",
          toString (AnswerArgs.sequence ⟨"Q3", "first answer", 3⟩)) = 1 :=
  (C8_save_answer_upsert ⟨"Q3", "first answer", 3⟩ 7 stateEx {}).2.2 rfl
    ⟨"Q3", "second answer", 3⟩ 8 rfl

/-- Claim C9 (confirmed): `store_user_details` raises IdentityMissing exactly
when the session's user id is unset (absent or empty — Python truthiness),
leaving state and store untouched; on success the session's interview id is
set — keeping an already assigned id and otherwise adopting the generated
one — `metadataComplete` becomes true, and the resolved id is returned. -/
theorem C9_store_user_details_contract (args : StoreArgs) (freshId : String)
    (now : Nat) (st : SessionState) (fs : Firestore) :
    ((store_user_details args freshId now st fs).result
        = Except.error
            (ToolError.identityMissing "Missing user identity in room metadata")
      ↔ pyTruthy st.user_id = false)
  ∧ (pyTruthy st.user_id = false →
      store_user_details args freshId now st fs
        = { result := Except.error
              (ToolError.identityMissing "Missing user identity in room metadata"),
            state := st, fstore := fs, actions := [] })
  ∧ (pyTruthy st.user_id = true →
      (store_user_details args freshId now st fs).state.interview_id
          = some (storeTargetId st freshId)
      ∧ (store_user_details args freshId now st fs).state.metadata_complete = true
      ∧ (store_user_details args freshId now st fs).result
          = Except.ok (ToolResult.interviewId (storeTargetId st freshId)))
  ∧ (pyTruthy st.interview_id = true →
      storeTargetId st freshId = st.interview_id.getD "")
  ∧ (pyTruthy st.interview_id = false → storeTargetId st freshId = freshId) := by
  refine ⟨?_, ?_, ?_, ?_, ?_⟩
  · by_cases hu : pyTruthy st.user_id <;> simp [store_user_details, hu]
  · intro hu; simp [store_user_details, hu]
  · intro hu; refine ⟨?_, ?_, ?_⟩ <;> simp [store_user_details, hu]
  · intro hi; simp [storeTargetId, hi]
  · intro hi; simp [storeTargetId, hi]

/-- Witness for C9 at a session that already has an interview id. -/
theorem C9_store_user_details_contract_witness :
    ((store_user_details storeArgsEx "f1" 4 stateEx {}).state.interview_id
        = some (storeTargetId stateEx "f1")
      ∧ (store_user_details storeArgsEx "f1" 4 stateEx {}).state.metadata_complete = true
      ∧ (store_user_details storeArgsEx "f1" 4 stateEx {}).result
          = Except.ok (ToolResult.interviewId (storeTargetId stateEx "f1")))
  ∧ storeTargetId stateEx "f1" = stateEx.interview_id.getD "" :=
  ⟨(C9_store_user_details_contract storeArgsEx "f1" 4 stateEx {}).2.2.1 rfl,
   (C9_store_user_details_contract storeArgsEx "f1" 4 stateEx {}).2.2.2.1 rfl⟩

theorem interviewDocAfter_eq (args : StoreArgs) (freshId : String) (now : Nat)
    (st : SessionState) (fs : Firestore) (hu : pyTruthy st.user_id = true) :
    interviewDocAfter args freshId now st fs
      = mergeDoc ((getAssoc fs.interviews (storeTargetId st freshId)).getD [])
          (resolveTimestamps now (interviewPayload args (st.user_id.getD ""))) := by
  simp [interviewDocAfter, store_user_details, hu, fsSetInterviewMerge,
    getAssoc_setAssoc_self]

theorem lastVal_interviewPayload_createdAt (args : StoreArgs) (u : String)
    (now : Nat) :
    lastVal (resolveTimestamps now (interviewPayload args u)) "createdAt"
      = some (FireValue.timestamp now) := by
  simp [interviewPayload, resolveTimestamps, lastVal]

theorem lastVal_interviewPayload_finalized (args : StoreArgs) (u : String)
    (now : Nat) :
    lastVal (resolveTimestamps now (interviewPayload args u)) "finalized"
      = some (FireValue.bool false) := by
  simp [interviewPayload, resolveTimestamps, lastVal]

theorem lastVal_interviewPayload_role (args : StoreArgs) (u : String)
    (now : Nat) :
    lastVal (resolveTimestamps now (interviewPayload args u)) "role"
      = some (FireValue.str args.role) := by
  simp [interviewPayload, resolveTimestamps, lastVal]

theorem lastVal_interviewPayload_level (args : StoreArgs) (u : String)
    (now : Nat) :
    lastVal (resolveTimestamps now (interviewPayload args u)) "level"
      = some (FireValue.str args.level) := by
  simp [interviewPayload, resolveTimestamps, lastVal]

theorem lastVal_interviewPayload_not_mem (args : StoreArgs) (u : String)
    (now : Nat) (k : String) (h : k ∉ payloadFieldNames) :
    lastVal (resolveTimestamps now (interviewPayload args u)) k = none := by
  simp [payloadFieldNames] at h
  obtain ⟨h1, h2, h3, h4, h5, h6, h7, h8⟩ := h
  simp [interviewPayload, resolveTimestamps, lastVal, Ne.symm h1, Ne.symm h2,
    Ne.symm h3, Ne.symm h4, Ne.symm h5, Ne.symm h6, Ne.symm h7, Ne.symm h8]

theorem lastVal_interviewPayload_ne_createdAt (args : StoreArgs) (u : String)
    (now1 now2 : Nat) (k : String) (h : k ≠ "createdAt") :
    lastVal (resolveTimestamps now1 (interviewPayload args u)) k
      = lastVal (resolveTimestamps now2 (interviewPayload args u)) k := by
  simp [interviewPayload, resolveTimestamps, lastVal, Ne.symm h]

theorem storeTargetId_ne_empty (st : SessionState) (freshId : String)
    (hfresh : freshId ≠ "") : storeTargetId st freshId ≠ "" := by
  rw [storeTargetId]
  by_cases hi : pyTruthy st.interview_id = true
  · cases h : st.interview_id with
    | none => rw [h] at hi; simp [pyTruthy] at hi
    | some s =>
      rw [h] at hi
      simp only [pyTruthy, decide_eq_true_eq] at hi
      simp [pyTruthy, hi, h]
  · simp [eq_false_of_ne_true hi, hfresh]

/-- Claim C10 (confirmed): every `store_user_details` call — also one merging
into an existing interview record — writes `finalized = false` and a fresh
store-assigned `createdAt`, overwriting whatever those two fields held. -/
theorem C10_store_overwrites_finalized_and_createdAt (args : StoreArgs)
    (freshId : String) (now : Nat) (st : SessionState) (fs : Firestore)
    (hu : pyTruthy st.user_id = true) :
    getAssoc (interviewDocAfter args freshId now st fs) "finalized"
      = some (FireValue.bool false)
  ∧ getAssoc (interviewDocAfter args freshId now st fs) "createdAt"
      = some (FireValue.timestamp now) := by
  rw [interviewDocAfter_eq args freshId now st fs hu]
  constructor
  · rw [mergeDoc_get]; simp [lastVal_interviewPayload_finalized]
  · rw [mergeDoc_get]; simp [lastVal_interviewPayload_createdAt]

/-- A store that already holds an interview record with `finalized = true`,
an original creation timestamp and a field this core never writes. -/
def priorFs : Firestore :=
  { interviews := [("i1", [("finalized", FireValue.bool true),
                           ("createdAt", FireValue.timestamp 999),
                           ("externalNote", FireValue.str "keep")])],
    answers := [] }

/-- Witness for C10: the prior record of `priorFs` had `finalized = true` and
`createdAt = 999`; after the call both are overwritten. -/
theorem C10_store_overwrites_finalized_and_createdAt_witness :
    getAssoc (interviewDocAfter storeArgsEx "f1" 7 stateEx priorFs) "finalized"
      = some (FireValue.bool false)
  ∧ getAssoc (interviewDocAfter storeArgsEx "f1" 7 stateEx priorFs) "createdAt"
      = some (FireValue.timestamp 7) :=
  C10_store_overwrites_finalized_and_createdAt storeArgsEx "f1" 7 stateEx priorFs rfl

/-- Claim C5 is refuted on its idempotence conjunct: two `store_user_details`
calls with identical arguments at store times 1 and 2 leave different
records — `createdAt` is refreshed by the second call. -/
theorem C5_counterexample :
    interviewDocAfter storeArgsEx "f2" 2
        (store_user_details storeArgsEx "f1" 1 stateEx {}).state
        (store_user_details storeArgsEx "f1" 1 stateEx {}).fstore
      ≠ interviewDocAfter storeArgsEx "f1" 1 stateEx {}
  ∧ getAssoc (interviewDocAfter storeArgsEx "f1" 1 stateEx {}) "createdAt"
      = some (FireValue.timestamp 1)
  ∧ getAssoc (interviewDocAfter storeArgsEx "f2" 2
        (store_user_details storeArgsEx "f1" 1 stateEx {}).state
        (store_user_details storeArgsEx "f1" 1 stateEx {}).fstore) "createdAt"
      = some (FireValue.timestamp 2) :=
  ⟨by decide, by decide, by decide⟩

/-- Claim C5, amended: the write is a merge — fields outside the eight the
call writes survive — and a repeated call with identical arguments changes
no field except `createdAt`, which is refreshed to the second commit time;
role and level are both present afterwards.  Strict idempotence on the
record fails only at `createdAt`. -/
theorem C5_merge_semantics (args : StoreArgs) (freshId1 freshId2 : String)
    (now1 now2 : Nat) (st : SessionState) (fs : Firestore)
    (hu : pyTruthy st.user_id = true) (hfresh : freshId1 ≠ "") :
    (∀ k, k ∉ payloadFieldNames →
      getAssoc (interviewDocAfter args freshId1 now1 st fs) k
        = getAssoc ((getAssoc fs.interviews (storeTargetId st freshId1)).getD []) k)
  ∧ (∀ k, k ≠ "createdAt" →
      getAssoc (interviewDocAfter args freshId2 now2
          (store_user_details args freshId1 now1 st fs).state
          (store_user_details args freshId1 now1 st fs).fstore) k
        = getAssoc (interviewDocAfter args freshId1 now1 st fs) k)
  ∧ getAssoc (interviewDocAfter args freshId2 now2
        (store_user_details args freshId1 now1 st fs).state
        (store_user_details args freshId1 now1 st fs).fstore) "createdAt"
      = some (FireValue.timestamp now2)
  ∧ getAssoc (interviewDocAfter args freshId2 now2
        (store_user_details args freshId1 now1 st fs).state
        (store_user_details args freshId1 now1 st fs).fstore) "role"
      = some (FireValue.str args.role)
  ∧ getAssoc (interviewDocAfter args freshId2 now2
        (store_user_details args freshId1 now1 st fs).state
        (store_user_details args freshId1 now1 st fs).fstore) "level"
      = some (FireValue.str args.level) := by
  have hdoc1 := interviewDocAfter_eq args freshId1 now1 st fs hu
  have hfs1 : (store_user_details args freshId1 now1 st fs).fstore
      = fsSetInterviewMerge fs (storeTargetId st freshId1)
          (resolveTimestamps now1 (interviewPayload args (st.user_id.getD ""))) := by
    simp [store_user_details, hu]
  have huser1 : (store_user_details args freshId1 now1 st fs).state.user_id
      = st.user_id := by
    simp [store_user_details, hu]
  have hid1 : (store_user_details args freshId1 now1 st fs).state.interview_id
      = some (storeTargetId st freshId1) := by
    simp [store_user_details, hu]
  have hu1 : pyTruthy (store_user_details args freshId1 now1 st fs).state.user_id
      = true := by
    rw [huser1]; exact hu
  have htarget : storeTargetId (store_user_details args freshId1 now1 st fs).state
      freshId2 = storeTargetId st freshId1 := by
    have hne := storeTargetId_ne_empty st freshId1 hfresh
    generalize hgen : storeTargetId st freshId1 = d at hid1 hne ⊢
    simp [storeTargetId, hid1, pyTruthy, hne]
  have hdoc2 : interviewDocAfter args freshId2 now2
      (store_user_details args freshId1 now1 st fs).state
      (store_user_details args freshId1 now1 st fs).fstore
      = mergeDoc (interviewDocAfter args freshId1 now1 st fs)
          (resolveTimestamps now2 (interviewPayload args (st.user_id.getD ""))) := by
    rw [interviewDocAfter_eq args freshId2 now2 _ _ hu1, htarget, hfs1, huser1]
    simp [fsSetInterviewMerge, getAssoc_setAssoc_self, hdoc1]
  refine ⟨?_, ?_, ?_, ?_, ?_⟩
  · intro k hk
    rw [hdoc1, mergeDoc_get,
      lastVal_interviewPayload_not_mem args (st.user_id.getD "") now1 k hk]
  · intro k hk
    rw [hdoc2, mergeDoc_get]
    cases hl : lastVal (resolveTimestamps now2
        (interviewPayload args (st.user_id.getD ""))) k with
    | none => simp
    | some w =>
      rw [hdoc1, mergeDoc_get,
        lastVal_interviewPayload_ne_createdAt args (st.user_id.getD "") now1 now2 k hk,
        hl]
  · rw [hdoc2, mergeDoc_get, lastVal_interviewPayload_createdAt]
  · rw [hdoc2, mergeDoc_get, lastVal_interviewPayload_role]
  · rw [hdoc2, mergeDoc_get, lastVal_interviewPayload_level]

/-- Witness for the amended C5 theorem: an externally written field survives
the merging call, and the role field is present after the repeated call. -/
theorem C5_merge_semantics_witness :
    getAssoc (interviewDocAfter storeArgsEx "f1" 1 stateEx priorFs) "externalNote"
      = getAssoc ((getAssoc priorFs.interviews (storeTargetId stateEx "f1")).getD [])
          "externalNote"
  ∧ getAssoc (interviewDocAfter storeArgsEx "f2" 2
        (store_user_details storeArgsEx "f1" 1 stateEx priorFs).state
        (store_user_details storeArgsEx "f1" 1 stateEx priorFs).fstore) "role"
      = some (FireValue.str storeArgsEx.role) :=
  ⟨(C5_merge_semantics storeArgsEx "f1" "f2" 1 2 stateEx priorFs rfl (by decide)).1
      "externalNote" (by decide),
   (C5_merge_semantics storeArgsEx "f1" "f2" 1 2 stateEx priorFs rfl
      (by decide)).2.2.2.1⟩

end Prepwise
